import Mathlib

/-!
Verification of the `Header` component of the Grievance Portal
(`src/components/Header.tsx`), a page header with navigation, logout and a
live notification dropdown.

The component is shallowly embedded: its local React state, its event
handlers (`fetchNotifications`, `handleMarkNotificationAsRead`,
`handleLogout`, `handleToggleNotifications`), the `useEffect` activation
logic, and the backend query it issues are translated into executable Lean
definitions.  Asynchronous backend calls are modelled by passing their
outcome (success payload or error) as an explicit argument; the backend
data store is modelled as a list of rows, and the `select` query the
component builds is executed by `fetchQuery` following the contract of the
store (filter, order, limit).
-/

/-- The role prop of the component: `user | employee | admin`. -/
inductive Role where
  | user
  | employee
  | admin
deriving DecidableEq, Repr

/-- A row of the `notifications` table.  The TypeScript `Notification`
interface exposes `id`, `message`, `grievance_id`, `is_read`, `created_at`;
the table additionally carries the `user_id` column the component filters
on (both in the fetch and in the realtime subscription filter).
`created_at` is the timestamp string; the backend orders these
lexicographically (ISO timestamps), which is `String` order here. -/
structure NotificationRow where
  id : Int
  user_id : String
  message : String
  grievance_id : Int
  is_read : Bool
  created_at : String
deriving DecidableEq, Repr

/-- The `session.user` object: only its `id` is used. -/
structure SessionUser where
  id : String
deriving DecidableEq, Repr

/-- The session object returned by `supabase.auth.getSession()`. -/
structure Session where
  user : SessionUser
deriving DecidableEq, Repr

/-- The props of `Header`.  The three function props are modelled by
their presence (the component only ever tests them for definedness and
delegates to them). -/
structure HeaderProps where
  role : Role
  notifications : Option (List NotificationRow)
  toggleNotifications : Bool
  markNotificationAsRead : Bool
  showNotifications : Option Bool
deriving DecidableEq, Repr

/-- Embedding of `const notifications = externalNotifications || localNotifications`:
a JavaScript array is truthy even when empty, and the prop is otherwise
undefined, so the external list is used exactly when it is supplied. -/
def displayedNotifications (externalNotifications : Option (List NotificationRow))
    (localNotifications : List NotificationRow) : List NotificationRow :=
  match externalNotifications with
  | some l => l
  | none => localNotifications

/-- Embedding of the conditional selecting `externalShowNotifications` when
it is defined and `localShowNotifications` otherwise. -/
def displayedShowNotifications (externalShowNotifications : Option Bool)
    (localShowNotifications : Bool) : Bool :=
  match externalShowNotifications with
  | some b => b
  | none => localShowNotifications

/-- Initial value of `useState` for the local list: empty. -/
def initialLocalNotifications : List NotificationRow := []

/-- Initial value of `useState` for the dropdown flag: hidden. -/
def initialLocalShowNotifications : Bool := false

/-- The badge renders `notifications.length` (when positive). -/
def badgeCount (notifications : List NotificationRow) : Nat :=
  notifications.length

/-- Descending order on `created_at`, the order of
the order clause on created_at with ascending false. -/
def notifDesc (a b : NotificationRow) : Prop :=
  b.created_at ≤ a.created_at

instance : DecidableRel notifDesc := fun a b =>
  inferInstanceAs (Decidable (b.created_at ≤ a.created_at))

instance : IsTotal NotificationRow notifDesc :=
  ⟨fun a b => le_total b.created_at a.created_at⟩

instance : IsTrans NotificationRow notifDesc :=
  ⟨fun _ _ _ h1 h2 => le_trans h2 h1⟩

/-- The query built by `fetchNotifications`, executed against a snapshot
`store` of the `notifications` table per the data-store contract:
select all columns, filter user_id equal to the session user and is_read
equal to false, order by created_at descending, limit 10. -/
def fetchQuery (store : List NotificationRow) (uid : String) : List NotificationRow :=
  (List.insertionSort notifDesc
    ((store.filter (fun r => r.user_id == uid)).filter (fun r => r.is_read == false))).take 10

/-- Embedding of `fetchNotifications`: resolves the session (returning unchanged state
when absent), then issues the query; `response` is the backend outcome,
either an error or a successful snapshot of the table against which the
query is executed.  Returns the new local list together with the console
error log lines.  On success the local list is replaced wholesale
(`setLocalNotifications(data || [])`); on error it is left unchanged. -/
def fetchNotifications (session : Option Session)
    (response : Except String (List NotificationRow))
    (localNotifications : List NotificationRow) :
    List NotificationRow × List String :=
  match session with
  | none => (localNotifications, [])
  | some s =>
    match response with
    | Except.error e => (localNotifications, ["Error fetching notifications: " ++ e])
    | Except.ok store => (fetchQuery store s.user.id, [])

/-- Embedding of `handleMarkNotificationAsRead`: when an external handler prop is
supplied it delegates with no local mutation; otherwise it issues the
update (outcome `updateError`), and on success removes every entry whose
`id` equals the argument (`prev.filter((notif) => notif.id !== notificationId)`);
on failure it logs and leaves the list unchanged. -/
def handleMarkNotificationAsRead (externalMarkNotificationAsRead : Bool)
    (updateError : Option String) (localNotifications : List NotificationRow)
    (notificationId : Int) : List NotificationRow × List String :=
  if externalMarkNotificationAsRead then (localNotifications, [])
  else
    match updateError with
    | some e => (localNotifications, ["Error marking notification as read: " ++ e])
    | none => (localNotifications.filter (fun notif => notif.id != notificationId), [])

/-- Observable actions of the logout handler. -/
inductive HeaderAction where
  | consoleError (msg : String)
  | routerPush (path : String)
  | routerRefresh
deriving DecidableEq, Repr

/-- Embedding of `handleLogout`: awaits `signOut` (outcome `signOutError`), logs a
failure, then unconditionally pushes the root route and refreshes. -/
def handleLogout (signOutError : Option String) : List HeaderAction :=
  (match signOutError with
   | some msg => [HeaderAction.consoleError ("Logout error: " ++ msg)]
   | none => []) ++ [HeaderAction.routerPush "/", HeaderAction.routerRefresh]

/-- Embedding of `handleToggleNotifications`: delegates when an external toggle prop is
supplied (local flag untouched), otherwise flips the local flag
(`setLocalShowNotifications(!localShowNotifications)`). -/
def handleToggleNotifications (externalToggleNotifications : Bool)
    (localShowNotifications : Bool) : Bool :=
  if externalToggleNotifications then localShowNotifications
  else !localShowNotifications

/-- The realtime channel teardown closure built inside `initialize`
(`() => supabase.removeChannel(channel)`). -/
inductive Cleanup where
  | removeChannel
deriving DecidableEq, Repr

/-- What one run of the `useEffect` body does.  `registeredCleanup` is the
synchronous return value of the effect callback: it is the only cleanup
React receives and runs on deactivation.  `promisedCleanup` is the value
the inner `async initialize` eventually returns; it is wrapped in the
promise of `initialize()`, which the effect neither awaits nor returns. -/
structure EffectRun where
  channelsOpened : Nat
  fetchInitiated : Bool
  promisedCleanup : Option Cleanup
  registeredCleanup : Option Cleanup
deriving DecidableEq, Repr

/-- The `useEffect` body: only when `externalNotifications` is absent does
`initialize` run; with a session it subscribes one channel and starts the
fetch, and its `return () => supabase.removeChannel(channel)` becomes the
resolution value of the `initialize()` promise.  The effect callback
itself returns `undefined` in every branch, so React registers no
cleanup. -/
def runEffect (props : HeaderProps) (session : Option Session) : EffectRun :=
  if props.notifications.isSome then
    ⟨0, false, none, none⟩
  else
    match session with
    | some _ => ⟨1, true, some Cleanup.removeChannel, none⟩
    | none => ⟨0, false, none, none⟩

/-- Channels removed when React deactivates the effect: React runs the
registered cleanup, if any. -/
def channelsReleasedOnDeactivation (run : EffectRun) : Nat :=
  match run.registeredCleanup with
  | some Cleanup.removeChannel => 1
  | none => 0

/-- Whether any notification-related prop (external list, toggle function,
mark-read function, or visibility flag) is supplied. -/
def hasNotificationProp (props : HeaderProps) : Bool :=
  props.notifications.isSome || props.toggleNotifications ||
    props.markNotificationAsRead || props.showNotifications.isSome

/-- Events that mutate the local notification list in local mode: the
initial fetch resolving (with the table snapshot it queried, or an
error), a realtime INSERT event delivering a row (the subscription filter
constrains only `user_id`, and the handler prepends the payload
unconditionally), and mark-read actions succeeding or failing. -/
inductive Event where
  | fetchSuccess (store : List NotificationRow)
  | fetchError (e : String)
  | realtimeInsert (row : NotificationRow)
  | markReadSuccess (notificationId : Int)
  | markReadError (notificationId : Int) (e : String)
deriving DecidableEq, Repr

/-- One state transition of the local notification list. -/
def step (uid : String) (s : List NotificationRow) : Event → List NotificationRow
  | Event.fetchSuccess store =>
      (fetchNotifications (some ⟨⟨uid⟩⟩) (Except.ok store) s).1
  | Event.fetchError e =>
      (fetchNotifications (some ⟨⟨uid⟩⟩) (Except.error e) s).1
  | Event.realtimeInsert row => row :: s
  | Event.markReadSuccess i => (handleMarkNotificationAsRead false none s i).1
  | Event.markReadError i e => (handleMarkNotificationAsRead false (some e) s i).1

/-- The local list reached from the initial empty state after a sequence
of events. -/
def finalState (uid : String) (events : List Event) : List NotificationRow :=
  events.foldl (step uid) initialLocalNotifications

/-- An event whose payload, if it is a realtime insert, is an unread row. -/
def insertUnread : Event → Prop
  | Event.realtimeInsert row => row.is_read = false
  | _ => True

/-- Every row the executed query returns comes from the queried snapshot,
belongs to the session user, and is unread. -/
theorem mem_fetchQuery {store : List NotificationRow} {uid : String}
    {r : NotificationRow} (h : r ∈ fetchQuery store uid) :
    r ∈ store ∧ r.user_id = uid ∧ r.is_read = false := by
  have h1 : r ∈ List.insertionSort notifDesc
      ((store.filter (fun x => x.user_id == uid)).filter (fun x => x.is_read == false)) :=
    List.take_subset _ _ h
  have h2 := (List.mem_insertionSort notifDesc).mp h1
  simp only [List.mem_filter, beq_iff_eq] at h2
  exact ⟨h2.1.1, h2.1.2, h2.2⟩

/-- The executed query is sorted newest first. -/
theorem fetchQuery_sorted (store : List NotificationRow) (uid : String) :
    List.Sorted notifDesc (fetchQuery store uid) :=
  List.Pairwise.sublist (List.take_sublist _ _) (List.sorted_insertionSort notifDesc _)

/-- The executed query returns at most 10 rows. -/
theorem fetchQuery_length_le (store : List NotificationRow) (uid : String) :
    (fetchQuery store uid).length ≤ 10 :=
  List.length_take_le _ _

/-- When at most 10 rows match, every matching row of the snapshot is
returned (the limit clips nothing). -/
theorem fetchQuery_complete {store : List NotificationRow} {uid : String}
    (h : ((store.filter (fun x => x.user_id == uid)).filter
      (fun x => x.is_read == false)).length ≤ 10)
    {r : NotificationRow} (hr : r ∈ store) (h1 : r.user_id = uid)
    (h2 : r.is_read = false) : r ∈ fetchQuery store uid := by
  have hm : r ∈ (store.filter (fun x => x.user_id == uid)).filter
      (fun x => x.is_read == false) := by
    simp only [List.mem_filter, beq_iff_eq]
    exact ⟨⟨hr, h1⟩, h2⟩
  have hlen : (List.insertionSort notifDesc
      ((store.filter (fun x => x.user_id == uid)).filter
        (fun x => x.is_read == false))).length ≤ 10 := by
    rw [List.length_insertionSort]; exact h
  rw [fetchQuery, List.take_of_length_le hlen]
  exact (List.mem_insertionSort notifDesc).mpr hm

/-- Claim C9: in local mode the dropdown toggle flips the visibility
flag, applying it twice returns the original state, and the initial
state is hidden. -/
theorem header_toggle_spec :
    (∀ b : Bool, handleToggleNotifications false (handleToggleNotifications false b) = b) ∧
    (∀ b : Bool, handleToggleNotifications false b = !b) ∧
    initialLocalShowNotifications = false := by
  refine ⟨fun b => ?_, fun b => rfl, rfl⟩
  cases b <;> rfl

/-- Claim C10: the displayed list and the dropdown visibility flag are
selected independently: the list is the external list exactly when one is
supplied (even empty), otherwise the local list; the flag is the external
flag exactly when defined (even false), otherwise the local flag; in
particular a mixed mode (external flag with local list) occurs. -/
theorem header_display_selection_spec :
    (∀ ext l, displayedNotifications (some ext) l = ext) ∧
    (∀ l, displayedNotifications none l = l) ∧
    (∀ b c, displayedShowNotifications (some b) c = b) ∧
    (∀ c, displayedShowNotifications none c = c) ∧
    (∀ l c, displayedNotifications none l = l ∧
      displayedShowNotifications (some true) c = true) :=
  ⟨fun _ _ => rfl, fun _ => rfl, fun _ _ => rfl, fun _ => rfl,
    fun _ _ => ⟨rfl, rfl⟩⟩

/-- Claim C6: for every sign-out outcome the logout handler pushes the
root route and requests a refresh, and a sign-out failure is logged but
never prevents the navigation. -/
theorem header_logout_always_navigates :
    (∀ r : Option String, HeaderAction.routerPush "/" ∈ handleLogout r ∧
      HeaderAction.routerRefresh ∈ handleLogout r) ∧
    (∀ msg : String,
      HeaderAction.consoleError ("Logout error: " ++ msg) ∈ handleLogout (some msg)) := by
  constructor
  · intro r
    cases r <;> simp [handleLogout]
  · intro msg
    simp [handleLogout]

/-- Claim C5: in local mode a failed mark-read leaves the displayed list
and the badge count unchanged; the error is logged and swallowed. -/
theorem header_markread_failure_unchanged :
    ∀ (e : String) (l : List NotificationRow) (i : Int),
      (handleMarkNotificationAsRead false (some e) l i).1 = l ∧
      badgeCount (handleMarkNotificationAsRead false (some e) l i).1 = badgeCount l ∧
      (handleMarkNotificationAsRead false (some e) l i).2 =
        ["Error marking notification as read: " ++ e] :=
  fun _ _ _ => ⟨rfl, rfl, rfl⟩

/-- Claim C1: evaluation of the activation/deactivation model in local
mode with a session present.  The effect opens one realtime channel and
builds the removeChannel cleanup, but that cleanup is only the resolution
value of the un-awaited `initialize()` promise: the effect callback
registers no cleanup with React, so deactivation releases zero channels
and the subscription leaks. -/
theorem header_channel_leak_eval :
    (runEffect ⟨Role.user, none, false, false, none⟩ (some ⟨⟨"user-1"⟩⟩)).channelsOpened = 1 ∧
    (runEffect ⟨Role.user, none, false, false, none⟩ (some ⟨⟨"user-1"⟩⟩)).promisedCleanup =
      some Cleanup.removeChannel ∧
    (runEffect ⟨Role.user, none, false, false, none⟩ (some ⟨⟨"user-1"⟩⟩)).registeredCleanup =
      none ∧
    channelsReleasedOnDeactivation
      (runEffect ⟨Role.user, none, false, false, none⟩ (some ⟨⟨"user-1"⟩⟩)) = 0 :=
  ⟨rfl, rfl, rfl, rfl⟩

/-- Claim C2 counterexample: a prop combination supplying only the
visibility flag (a notification-related prop) in which the component,
with a session present, still opens the realtime subscription and
initiates the local fetch — only the external list prop disables them. -/
theorem header_any_prop_cex :
    hasNotificationProp ⟨Role.user, none, false, false, some false⟩ = true ∧
    (runEffect ⟨Role.user, none, false, false, some false⟩
      (some ⟨⟨"user-1"⟩⟩)).channelsOpened = 1 ∧
    (runEffect ⟨Role.user, none, false, false, some false⟩
      (some ⟨⟨"user-1"⟩⟩)).fetchInitiated = true :=
  ⟨rfl, rfl, rfl⟩

/-- Claim C2 (amended): exactly the presence of the external notification
list suppresses the local fetch and realtime subscription; the other
notification props each only divert their own handler. -/
theorem header_external_list_disables_sync (p : HeaderProps) (sess : Option Session)
    (h : p.notifications.isSome = true) :
    (runEffect p sess).channelsOpened = 0 ∧
    (runEffect p sess).fetchInitiated = false := by
  unfold runEffect
  rw [if_pos h]
  exact ⟨rfl, rfl⟩

/-- Witness for the amended C2 theorem at a concrete prop record. -/
theorem header_external_list_disables_sync_witness :
    (runEffect ⟨Role.user, some [], false, false, none⟩
      (some ⟨⟨"user-1"⟩⟩)).channelsOpened = 0 ∧
    (runEffect ⟨Role.user, some [], false, false, none⟩
      (some ⟨⟨"user-1"⟩⟩)).fetchInitiated = false :=
  header_external_list_disables_sync ⟨Role.user, some [], false, false, none⟩
    (some ⟨⟨"user-1"⟩⟩) rfl

/-- A step of the local-mode state machine keeps every entry unread, as
long as a realtime insert delivers an unread row. -/
theorem step_preserves_unread (uid : String) (s : List NotificationRow) (e : Event)
    (hs : ∀ n ∈ s, n.is_read = false) (he : insertUnread e) :
    ∀ n ∈ step uid s e, n.is_read = false := by
  cases e with
  | fetchSuccess store =>
    intro n hn
    have hq : n ∈ fetchQuery store uid := hn
    exact (mem_fetchQuery hq).2.2
  | fetchError e => exact hs
  | realtimeInsert row =>
    intro n hn
    rcases List.mem_cons.mp hn with h | h
    · subst h; exact he
    · exact hs n h
  | markReadSuccess i =>
    intro n hn
    have hf : n ∈ s.filter (fun notif => notif.id != i) := hn
    exact hs n (List.mem_filter.mp hf).1
  | markReadError i e => exact hs

/-- Unreadness is preserved along any event sequence. -/
theorem foldl_step_unread (uid : String) (events : List Event) :
    ∀ s : List NotificationRow, (∀ n ∈ s, n.is_read = false) →
      (∀ e ∈ events, insertUnread e) →
      ∀ n ∈ events.foldl (step uid) s, n.is_read = false := by
  induction events with
  | nil => intro s hs _ n hn; exact hs n hn
  | cons e es ih =>
    intro s hs he n hn
    exact ih (step uid s e)
      (step_preserves_unread uid s e hs (he e (List.mem_cons_self e es)))
      (fun x hx => he x (List.mem_cons_of_mem e hx)) n hn

/-- Claim C3 (amended): in local mode, provided every delivered realtime
insert event carries an unread row (the subscription filter constrains
only the user id, not `is_read`), every reachable state of the displayed
list contains no entry with `is_read = true`. -/
theorem header_unread_invariant (uid : String) (events : List Event)
    (h : ∀ e ∈ events, insertUnread e) :
    ∀ n ∈ finalState uid events, n.is_read = false :=
  foldl_step_unread uid events initialLocalNotifications
    (fun n hn => absurd hn (List.not_mem_nil n)) h

/-- Witness for the amended C3 theorem on a concrete trace. -/
theorem header_unread_invariant_witness :
    (finalState "u1"
      [Event.realtimeInsert ⟨1, "u1", "new grievance", 2, false, "t1"⟩,
       Event.markReadSuccess 1]).all (fun n => n.is_read == false) = true := by
  have h := header_unread_invariant "u1"
    [Event.realtimeInsert ⟨1, "u1", "new grievance", 2, false, "t1"⟩,
     Event.markReadSuccess 1]
    (by intro e he
        rcases List.mem_cons.mp he with h1 | h1
        · subst h1; exact rfl
        · rcases List.mem_cons.mp h1 with h2 | h2
          · subst h2; exact trivial
          · exact absurd h2 (List.not_mem_nil e))
  exact List.all_eq_true.mpr (fun n hn => by simp [h n hn])

/-- Claim C3 counterexample: the realtime INSERT handler prepends its
payload without inspecting `is_read`, so one delivered insert event whose
row is already read yields a reachable displayed list containing an entry
with `is_read = true`. -/
theorem header_unread_invariant_cex :
    (⟨1, "u1", "already read", 2, true, "t1"⟩ : NotificationRow) ∈
      finalState "u1"
        [Event.realtimeInsert ⟨1, "u1", "already read", 2, true, "t1"⟩] ∧
    (⟨1, "u1", "already read", 2, true, "t1"⟩ : NotificationRow).is_read = true := by
  constructor
  · exact List.mem_singleton.mpr rfl
  · rfl

/-- Removing all entries of one id: the kept and removed entries
partition the length. -/
theorem length_filter_ne_id (l : List NotificationRow) (i : Int) :
    (l.filter (fun n => n.id != i)).length +
      l.countP (fun n => n.id == i) = l.length := by
  induction l with
  | nil => rfl
  | cons a t ih =>
    by_cases h : a.id = i
    · have hfilter : (a :: t).filter (fun n => n.id != i) =
          t.filter (fun n => n.id != i) := by
        simp [List.filter_cons, h]
      have hcount : (a :: t).countP (fun n => n.id == i) =
          t.countP (fun n => n.id == i) + 1 := by
        simp [List.countP_cons, h]
      rw [hfilter, hcount, List.length_cons]
      omega
    · have hfilter : (a :: t).filter (fun n => n.id != i) =
          a :: t.filter (fun n => n.id != i) := by
        simp [List.filter_cons, h]
      have hcount : (a :: t).countP (fun n => n.id == i) =
          t.countP (fun n => n.id == i) := by
        simp [List.countP_cons, h]
      rw [hfilter, hcount, List.length_cons, List.length_cons]
      omega

/-- Claim C4 (amended): in local mode a successful mark-read removes
every entry bearing the target id, and the badge count drops by exactly
the number of such entries — exactly one whenever the id occurs exactly
once in the list (ids can repeat, since the realtime handler never
de-duplicates). -/
theorem header_markread_success_spec (l : List NotificationRow) (i : Int) :
    (∀ n ∈ (handleMarkNotificationAsRead false none l i).1, n.id ≠ i) ∧
    badgeCount (handleMarkNotificationAsRead false none l i).1 +
      l.countP (fun n => n.id == i) = badgeCount l ∧
    (l.countP (fun n => n.id == i) = 1 →
      badgeCount (handleMarkNotificationAsRead false none l i).1 + 1 = badgeCount l) := by
  have hstep : (handleMarkNotificationAsRead false none l i).1 =
      l.filter (fun notif => notif.id != i) := rfl
  have hlen := length_filter_ne_id l i
  refine ⟨?_, ?_, ?_⟩
  · intro n hn
    rw [hstep] at hn
    have hb := (List.mem_filter.mp hn).2
    exact bne_iff_ne.mp hb
  · rw [hstep]; exact hlen
  · intro hc
    rw [hstep]
    unfold badgeCount
    omega

/-- Witness for the amended C4 theorem: a singleton list, whose badge
count drops from 1 to 0. -/
theorem header_markread_success_spec_witness :
    List.countP (fun n => n.id == (7 : Int))
      [(⟨7, "u1", "hello", 3, false, "t1"⟩ : NotificationRow)] = 1 ∧
    badgeCount (handleMarkNotificationAsRead false none
      [(⟨7, "u1", "hello", 3, false, "t1"⟩ : NotificationRow)] 7).1 + 1 =
      badgeCount [(⟨7, "u1", "hello", 3, false, "t1"⟩ : NotificationRow)] :=
  ⟨rfl, (header_markread_success_spec
    [(⟨7, "u1", "hello", 3, false, "t1"⟩ : NotificationRow)] 7).2.2 rfl⟩

/-- Claim C4 counterexample: a reachable list holding two entries with
the same id (two realtime inserts of the same row); marking that id read
drops the badge count from 2 to 0, not by exactly one. -/
theorem header_markread_duplicate_cex :
    badgeCount (finalState "u1"
      [Event.realtimeInsert ⟨7, "u1", "hello", 3, false, "t1"⟩,
       Event.realtimeInsert ⟨7, "u1", "hello", 3, false, "t1"⟩]) = 2 ∧
    badgeCount (finalState "u1"
      [Event.realtimeInsert ⟨7, "u1", "hello", 3, false, "t1"⟩,
       Event.realtimeInsert ⟨7, "u1", "hello", 3, false, "t1"⟩,
       Event.markReadSuccess 7]) = 0 := by
  constructor
  · rfl
  · rfl

/-- Claim C7: in local mode with a session, the initial fetch runs the
query (user matches, unread only, newest first, at most 10 rows — all
matching rows when at most 10 match) and on success replaces the whole
local list with the result; on a backend error the list is unchanged and
the error is logged. -/
theorem header_fetch_spec :
    (∀ (s : Session) (e : String) (l : List NotificationRow),
      fetchNotifications (some s) (Except.error e) l =
        (l, ["Error fetching notifications: " ++ e])) ∧
    (∀ (s : Session) (store l : List NotificationRow),
      fetchNotifications (some s) (Except.ok store) l =
        (fetchQuery store s.user.id, [])) ∧
    (∀ (store : List NotificationRow) (uid : String) (r : NotificationRow),
      r ∈ fetchQuery store uid → r ∈ store ∧ r.user_id = uid ∧ r.is_read = false) ∧
    (∀ (store : List NotificationRow) (uid : String),
      List.Sorted notifDesc (fetchQuery store uid)) ∧
    (∀ (store : List NotificationRow) (uid : String),
      (fetchQuery store uid).length ≤ 10) ∧
    (∀ (store : List NotificationRow) (uid : String),
      ((store.filter (fun x => x.user_id == uid)).filter
        (fun x => x.is_read == false)).length ≤ 10 →
      ∀ r ∈ store, r.user_id = uid → r.is_read = false → r ∈ fetchQuery store uid) :=
  ⟨fun _ _ _ => rfl, fun _ _ _ => rfl, fun _ _ _ h => mem_fetchQuery h,
    fetchQuery_sorted, fetchQuery_length_le,
    fun _ _ h _ hr h1 h2 => fetchQuery_complete h hr h1 h2⟩

/-- Witness for C7 on a concrete session, store snapshot and error. -/
theorem header_fetch_spec_witness :
    fetchNotifications (some ⟨⟨"u1"⟩⟩) (Except.error "down") [] =
      ([], ["Error fetching notifications: " ++ "down"]) ∧
    (⟨1, "u1", "m", 2, false, "t1"⟩ : NotificationRow) ∈
      fetchQuery [⟨1, "u1", "m", 2, false, "t1"⟩] "u1" := by
  have h := header_fetch_spec
  refine ⟨h.1 ⟨⟨"u1"⟩⟩ "down" [], ?_⟩
  exact h.2.2.2.2.2 [⟨1, "u1", "m", 2, false, "t1"⟩] "u1" (by decide)
    ⟨1, "u1", "m", 2, false, "t1"⟩ (List.mem_singleton.mpr rfl) rfl rfl

/-- Claim C8: a realtime insert delivered before the fetch resolves is
prepended to the list; the fetch resolution then overwrites the entire
list with the query result, so the prepended row survives only if it is
among the returned rows (fetch wins, no merge or de-duplication). -/
theorem header_insert_before_fetch (uid : String) (s : List NotificationRow)
    (r : NotificationRow) (store : List NotificationRow) :
    step uid s (Event.realtimeInsert r) = r :: s ∧
    step uid (step uid s (Event.realtimeInsert r)) (Event.fetchSuccess store) =
      fetchQuery store uid ∧
    (r ∉ fetchQuery store uid →
      r ∉ step uid (step uid s (Event.realtimeInsert r)) (Event.fetchSuccess store)) :=
  ⟨rfl, rfl, fun h => h⟩

/-- Witness for C8: against an empty snapshot the prepended row is
discarded by the resolving fetch. -/
theorem header_insert_before_fetch_witness :
    step "u1" [] (Event.realtimeInsert ⟨9, "u1", "late", 4, false, "t9"⟩) =
      [⟨9, "u1", "late", 4, false, "t9"⟩] ∧
    (⟨9, "u1", "late", 4, false, "t9"⟩ : NotificationRow) ∉
      step "u1" (step "u1" [] (Event.realtimeInsert ⟨9, "u1", "late", 4, false, "t9"⟩))
        (Event.fetchSuccess []) := by
  have h := header_insert_before_fetch "u1" []
    ⟨9, "u1", "late", 4, false, "t9"⟩ []
  exact ⟨h.1, h.2.2 (by simp [fetchQuery])⟩
